import Mathlib

/-!
Verification development for the Hytm/loader repository (Go).

The repository simulates a ledger of accounts under fund transfers with an
asynchronous fraud-detection pipeline. The model below is a shallow embedding
of the Go sources: the database tables declared in src/db_local/init.sql are
records of row lists, every SQL statement issued by the Go code is translated
to an explicit operation on those lists, and each Go function touching the
store becomes a Lean function over the database state. A transaction run by
crdbpgx.ExecuteTx is one atomic step: on an error returned by the closure the
database is rolled back (unchanged), while the process-wide in-memory
counters mutated inside the closure keep their new values.

Machine integers: balances and amounts are INT8 in the schema and Go int in
the code; the store raises an error on INT8 overflow rather than wrapping,
and all amounts handled by the program are far below the overflow bound, so
balances are modelled as unbounded Int.
-/

-- Data model and operations, translated from the Go sources and init.sql.

/-- Constant block from main.go lines 32 to 40: reason string for blocks. -/
def reason : String := "Suspicious activity detected!"

/-- Constant notAnomaly from main.go: the Ok severity level. -/
def notAnomaly : String := "Ok"

/-- Constant warning from main.go: the Warning severity level. -/
def warning : String := "Warning"

/-- Constant alert from main.go: the Alert severity level. -/
def alert : String := "Alert"

/-- Constant blockThreshold from main.go: escalation threshold. -/
def blockThreshold : Nat := 20

/-- Row of the transfers table (init.sql): id, source, destination, amount.
The ts column defaults to now() and is never read by the code under test. -/
structure TransferRow where
  id : String
  source : String
  destination : String
  amount : Int
  deriving DecidableEq, Repr

/-- Row of the anomalies table (init.sql): source, destination, transfer_id,
anomaly_level. The id column defaults to gen_random_uuid() and is never read. -/
structure AnomalyRow where
  source : String
  destination : String
  transferId : Option String
  anomalyLevel : String
  deriving DecidableEq, Repr

/-- Row of the blocked_accounts table (init.sql): source (primary key), reason. -/
structure BlockedRow where
  source : String
  reason : String
  deriving DecidableEq, Repr

/-- The database state: the four tables of init.sql. The accounts table maps
account id (UUID, modelled as String) to balance; id is the primary key. -/
structure DB where
  accounts : List (String × Int)
  transfers : List TransferRow
  anomalies : List AnomalyRow
  blockedAccounts : List BlockedRow
  deriving DecidableEq, Repr

/-- Process-wide counters from main.go lines 25 to 30: suspiciousTransfers and
transfers, plain Go ints mutated without synchronization. -/
structure ProcState where
  suspiciousTransfers : Nat
  transfers : Nat
  deriving DecidableEq, Repr

/-- Errors surfaced by transferFunds: a block refusal carrying the reason
string, the insufficent-funds business error, or a missing required row. -/
inductive TransferError where
  | blocked (reason : String)
  | insufficientFunds
  | noRow
  deriving DecidableEq, Repr

/-- SELECT balance FROM accounts WHERE id = given id: first matching row. -/
def findBalance : List (String × Int) → String → Option Int
  | [], _ => none
  | r :: rest, id => if r.1 = id then some r.2 else findBalance rest id

/-- Balance lookup on the database state. -/
def lookupBalance (db : DB) (id : String) : Option Int :=
  findBalance db.accounts id

/-- SELECT reason FROM blocked_accounts WHERE source = given id. -/
def findReason : List BlockedRow → String → Option String
  | [], _ => none
  | r :: rest, src => if r.source = src then some r.reason else findReason rest src

/-- Block-entry lookup on the database state. -/
def lookupBlocked (db : DB) (src : String) : Option String :=
  findReason db.blockedAccounts src

/-- Effect of UPDATE accounts SET balance = f(balance) WHERE id = given id on
one row: rows with a different id are untouched. -/
def updRow (id : String) (f : Int → Int) (r : String × Int) : String × Int :=
  if r.1 = id then (r.1, f r.2) else r

/-- UPDATE accounts SET balance = f(balance) WHERE id = given id. -/
def updateBalance (db : DB) (id : String) (f : Int → Int) : DB :=
  { db with accounts := db.accounts.map (updRow id f) }

/-- transferFunds from main.go lines 294 to 334, one transaction attempt.
Steps, in source order: read the blocked_accounts reason for the source into
a NullString (left at its zero value, the empty string, when no row matches);
if the reason is non-empty, increment suspiciousTransfers and return the
reason as an error; read the source balance, failing when the row is absent;
fail with the insufficent-funds error when balance < amount; debit the
source, credit the destination, append a transfers row with a fresh id, and
increment the transfers counter. The returned ProcState carries the counter
mutations, which survive even when the transaction itself errors. -/
def transferFunds (db : DB) (proc : ProcState) (src dst : String)
    (amount : Int) (tid : String) : Except TransferError DB × ProcState :=
  let blockedReason := (lookupBlocked db src).getD ""
  if blockedReason ≠ "" then
    (Except.error (TransferError.blocked blockedReason),
      { proc with suspiciousTransfers := proc.suspiciousTransfers + 1 })
  else
    match lookupBalance db src with
    | none => (Except.error TransferError.noRow, proc)
    | some fromBalance =>
      if fromBalance < amount then
        (Except.error TransferError.insufficientFunds, proc)
      else
        let db1 := updateBalance db src (fun b => b - amount)
        let db2 := updateBalance db1 dst (fun b => b + amount)
        let db3 := { db2 with transfers := db2.transfers ++
          [{ id := tid, source := src, destination := dst, amount := amount }] }
        (Except.ok db3, { proc with transfers := proc.transfers + 1 })

/-- One transferFunds transaction as run by crdbpgx.ExecuteTx (main.go line
280): on success the new database state is committed; on an error the
transaction is rolled back, so the database is unchanged, while the counter
mutations in ProcState persist. Result: (database, counters, error). -/
def runTransfer (db : DB) (proc : ProcState) (src dst : String)
    (amount : Int) (tid : String) : DB × ProcState × Option TransferError :=
  match transferFunds db proc src dst amount tid with
  | (Except.ok db2, p2) => (db2, p2, none)
  | (Except.error e, p2) => (db, p2, some e)

/-- One transfer request issued by the callTransfer loop (main.go lines 259
to 292): source, destination, amount, fresh transfer id. -/
structure TransferReq where
  src : String
  dst : String
  amount : Int
  tid : String
  deriving DecidableEq, Repr

/-- Sequential execution of a list of transfer requests, as performed by the
callTransfer loop: each iteration runs one transaction and keeps the
committed state, a rejected transfer leaving the database unchanged. -/
def runTransfers (db : DB) (proc : ProcState) : List TransferReq → DB × ProcState
  | [] => (db, proc)
  | r :: rest =>
    let out := runTransfer db proc r.src r.dst r.amount r.tid
    runTransfers out.1 out.2.1 rest

/-- Sum of all account balances. -/
def sumBalances (db : DB) : Int := (db.accounts.map Prod.snd).sum

/-- The list of account ids, in table order. -/
def accountIds (db : DB) : List String := db.accounts.map Prod.fst

/-- Witness for C2: balance 100, requested amount 200. -/
def dbLow : DB :=
  { accounts := [("A", 100), ("B", 100)], transfers := [], anomalies := [],
    blockedAccounts := [] }

/-- Witness data for C3: account A carries a block entry. -/
def dbBlocked : DB :=
  { accounts := [("A", 1000), ("B", 1000)], transfers := [], anomalies := [],
    blockedAccounts := [{ source := "A", reason := reason }] }

/-- Witness data for C1 and C9: two accounts with balance 1000 each,
mirroring the end-to-end example of the spec. -/
def dbTwo : DB :=
  { accounts := [("A", 1000), ("B", 1000)], transfers := [], anomalies := [],
    blockedAccounts := [] }

/-- Witness sequence for C1: a committed transfer then a rejected one. -/
def reqsTwo : List TransferReq :=
  [{ src := "A", dst := "B", amount := 500, tid := "t1" },
   { src := "A", dst := "B", amount := 600, tid := "t2" }]

/-- Error produced by a query: either the pgx no-rows error, whose message
is the string "no rows in result set" tested by the Go code, or any other
store error with its message. -/
inductive QueryError where
  | noRows
  | other (msg : String)
  deriving DecidableEq, Repr

/-- The message of a query error, as compared by err.Error() in the Go code. -/
def QueryError.message : QueryError → String
  | QueryError.noRows => "no rows in result set"
  | QueryError.other m => m

/-- Message from main.go lines 46 to 51: one ingested change-feed record. -/
structure Message where
  id : String
  key : List String
  source : String
  destination : String
  deriving DecidableEq, Repr

/-- Columns of the anomalies table as declared in init.sql. -/
def anomaliesColumns : List String :=
  ["id", "source", "destination", "transfer_id", "anomaly_level"]

/-- Columns of the transfers table as declared in init.sql. -/
def transfersColumns : List String :=
  ["id", "source", "destination", "amount", "ts"]

/-- Outcome of an INSERT INTO anomalies statement naming the given columns:
the store rejects the statement with an undefined-column error when a named
column is not part of the anomalies schema; otherwise the row is appended. -/
def insertAnomaliesOutcome (db : DB) (cols : List String) (row : AnomalyRow) :
    Except QueryError DB :=
  if cols.all (fun c => anomaliesColumns.contains c) then
    Except.ok { db with anomalies := db.anomalies ++ [row] }
  else
    Except.error (QueryError.other "column does not exist")

/-- Severity of a transfer amount, per the anomalyLevel function of
src/db_local/init.sql lines 31 to 40: Ok below 500, Warning below 1000,
Alert otherwise. -/
def anomalyLevelOfAmount (amount : Int) : String :=
  if amount < 500 then notAnomaly
  else if amount < 1000 then warning
  else alert

/-- SELECT id row of the transfers table matching the given transfer id. -/
def findTransfer : List TransferRow → String → Option TransferRow
  | [], _ => none
  | t :: rest, id => if t.id = id then some t else findTransfer rest id

/-- The anomalyLevel SQL function of init.sql applied to the database state:
the severity of the transfer with the given id, when that transfer exists. -/
def anomalyLevel (db : DB) (id : String) : Option String :=
  (findTransfer db.transfers id).map (fun t => anomalyLevelOfAmount t.amount)

/-- isAnomaly from main.go lines 93 to 113. qres is the scanned outcome of
SELECT anomalyLevel(m.Id). The Go error check reads: when the error message
differs from "no rows in result set" the function returns nil, and otherwise
it returns the error. When the scanned level is not Ok the function issues
INSERT INTO anomalies (source, destination, level) VALUES (m.Source,
m.Destination, level) — the anomalies schema has no column named level (its
column is anomaly_level) and the transfer id is not part of the statement;
a failed insert is only logged and the function still returns nil. -/
def isAnomaly (db : DB) (qres : Except QueryError String) (m : Message) :
    Except QueryError DB :=
  match qres with
  | Except.error err =>
      if err.message ≠ "no rows in result set" then Except.ok db
      else Except.error err
  | Except.ok anomaly =>
      if anomaly ≠ notAnomaly then
        match insertAnomaliesOutcome db ["source", "destination", "level"]
            { source := m.source, destination := m.destination,
              transferId := none, anomalyLevel := anomaly } with
        | Except.error _ => Except.ok db
        | Except.ok db2 => Except.ok db2
      else Except.ok db

/-- isFraud from the repetition-policy variant (src/unnamed/part_000). qres
is the scanned outcome of SELECT isFraud(source, destination). The error
check has the same shape as in isAnomaly. When the scanned count is
positive the function issues INSERT INTO anomalies (source, destination,
reason) — reason is not a column of the anomalies schema either — and a
failed insert is only logged, the function returning nil. -/
def isFraud (db : DB) (qres : Except QueryError Int) (source destination : String) :
    Except QueryError DB :=
  match qres with
  | Except.error err =>
      if err.message ≠ "no rows in result set" then Except.ok db
      else Except.error err
  | Except.ok n =>
      if 0 < n then
        match insertAnomaliesOutcome db ["source", "destination", "reason"]
            { source := source, destination := destination,
              transferId := none, anomalyLevel := reason } with
        | Except.error _ => Except.ok db
        | Except.ok db2 => Except.ok db2
      else Except.ok db

/-- Outcome of the escalation query of needToBlockAccount (main.go line 116):
SELECT anomaly_level, count(..) FROM transfers WHERE source = given source
GROUP BY anomaly_level. The transfers table of init.sql has columns id,
source, destination, amount, ts and no anomaly_level column, so the store
rejects the query with an undefined-column error. (Besides, the placeholder
in the WHERE clause is quoted, so even with such a column the comparison
would be against the literal two-character string and match no row,
yielding the empty group list modelled by the unreachable branch.) -/
def escalationQueryOutcome : Except QueryError (List (String × Nat)) :=
  if transfersColumns.contains "anomaly_level" then
    Except.ok []
  else
    Except.error (QueryError.other "column anomaly_level does not exist")

/-- needToBlockAccount from main.go lines 115 to 149: run the escalation
query; on an error whose message is not the no-rows message, return nil,
otherwise return the error; sum the per-level counts with weight 1 for
Warning and 5 for Alert; when the rate reaches blockThreshold, INSERT the
source into blocked_accounts with the fixed reason (source is the primary
key, so the insert errors when an entry already exists, and that error is
returned after logging). -/
def needToBlockAccount (db : DB) (source : String) : Except QueryError DB :=
  match escalationQueryOutcome with
  | Except.error err =>
      if err.message ≠ "no rows in result set" then Except.ok db
      else Except.error err
  | Except.ok rows =>
      let rate := rows.foldl
        (fun acc lc =>
          if lc.1 = warning then acc + lc.2
          else if lc.1 = alert then acc + 5 * lc.2
          else acc) 0
      if blockThreshold ≤ rate then
        match findReason db.blockedAccounts source with
        | some _ => Except.error (QueryError.other "duplicate key value")
        | none => Except.ok { db with blockedAccounts :=
            db.blockedAccounts ++ [{ source := source, reason := reason }] }
      else Except.ok db

/-- Escalation sample state: twenty Warning anomaly records for source A,
total anomaly weight 20, exactly the block threshold; no block entry. -/
def dbEsc : DB :=
  { accounts := [("A", 1000), ("B", 1000)], transfers := [],
    anomalies := List.replicate 20
      { source := "A", destination := "B", transferId := none,
        anomalyLevel := warning },
    blockedAccounts := [] }

/-- Velocity sample state: one committed transfer of amount 600, which the
classifier grades Warning. -/
def dbVel : DB :=
  { accounts := [("A", 1000), ("B", 1000)],
    transfers := [{ id := "t1", source := "A", destination := "B", amount := 600 }],
    anomalies := [], blockedAccounts := [] }

/-- Ingested event matching the sample transfer. -/
def msgVel : Message := { id := "t1", key := [], source := "A", destination := "B" }

/-- The crdbpgx.ExecuteTx retry loop around transferFunds (main.go line
280): on a retryable conflict detected at commit time the closure re-runs
from the start; the database writes of the aborted attempt are rolled back,
but the in-memory counter increments that already ran inside the closure
persist. The retries argument counts aborted attempts before the final
one. -/
def runTransferWithRetries (db : DB) (proc : ProcState) (retries : Nat)
    (src dst : String) (amount : Int) (tid : String) :
    DB × ProcState × Option TransferError :=
  match retries with
  | 0 => runTransfer db proc src dst amount tid
  | Nat.succ n =>
      let attempt := transferFunds db proc src dst amount tid
      runTransferWithRetries db attempt.2 n src dst amount tid

/-- Newline byte used by ServeHTTP (main.go line 60) to split the body. -/
def newLine : Char := '\n'

/-- Semantics of bytes.Split at a one-byte separator: a buffer with n
separator bytes yields n + 1 segments, so the empty buffer yields one empty
segment and a trailing separator yields a trailing empty segment. -/
def bytesSplit (sep : Char) : List Char → List (List Char)
  | [] => [[]]
  | c :: rest =>
    if c = sep then [] :: bytesSplit sep rest
    else
      match bytesSplit sep rest with
      | [] => [[c]]
      | s :: ss => (c :: s) :: ss

/-- Body of the ServeHTTP loop (main.go lines 62 to 70) over the split
segments: unmarshal each segment in order; a segment that fails to parse
logs the error and returns, aborting the remaining segments (abort flag
true); a parsed Message is dispatched to the fraud pipeline. Returns the
dispatched messages in order plus the abort flag. The parse argument stands
for json.Unmarshal into Message, an external library function. -/
def processLines (parse : List Char → Option Message) :
    List (List Char) → List Message × Bool
  | [] => ([], false)
  | v :: rest =>
    match parse v with
    | none => ([], true)
    | some m =>
      let out := processLines parse rest
      (m :: out.1, out.2)

/-- ServeHTTP from main.go lines 54 to 71: read the body, split it on the
newline byte, process segment by segment. The HTTP plumbing is external;
the handler is a total function, so a malformed segment never crashes the
endpoint. -/
def serveHTTP (parse : List Char → Option Message) (buf : List Char) :
    List Message × Bool :=
  processLines parse (bytesSplit newLine buf)

/-- First well-formed JSON line for the concrete runs: the escaped \x7b and
\x7d bytes are the literal braces of a one-field JSON object. -/
def lineA : String := "\x7b\"id\":\"1\"\x7d"

/-- Second well-formed JSON line. -/
def lineB : String := "\x7b\"id\":\"2\"\x7d"

/-- Message parsed from lineA: absent JSON fields stay at their zero value. -/
def msgA : Message := { id := "1", key := [], source := "", destination := "" }

/-- Message parsed from lineB. -/
def msgB : Message := { id := "2", key := [], source := "", destination := "" }

/-- Unmarshal outcome function for the concrete runs: lineA and lineB are
the well-formed records; every other segment — such as the literal x, or
the empty segment produced by a trailing newline, on which json.Unmarshal
fails with an unexpected-end-of-input error — is malformed. -/
def parseEx (v : List Char) : Option Message :=
  if v = lineA.toList then some msgA
  else if v = lineB.toList then some msgB
  else none

/-- Witness body for C7: a well-formed line, a malformed line, then another
well-formed line, with no trailing newline. -/
def bodyMid : List Char := (lineA ++ "\n" ++ "x" ++ "\n" ++ lineB).toList

/-- Counterexample body for C10: ends with a newline; a well-formed record
(lineB) stands between the malformed line x and the trailing empty
segment. -/
def bodyTrail : List Char := (lineA ++ "\n" ++ "x" ++ "\n" ++ lineB ++ "\n").toList

-- Theorems.

theorem updRow_fst (id : String) (f : Int → Int) (r : String × Int) :
    (updRow id f r).1 = r.1 := by
  unfold updRow; split <;> rfl

theorem map_fst_map_updRow (rows : List (String × Int)) (id : String) (f : Int → Int) :
    (rows.map (updRow id f)).map Prod.fst = rows.map Prod.fst := by
  induction rows with
  | nil => rfl
  | cons r rest ih => simp [updRow_fst, ih]

theorem findBalance_map_updRow_self (rows : List (String × Int)) (id : String)
    (f : Int → Int) :
    findBalance (rows.map (updRow id f)) id = (findBalance rows id).map f := by
  induction rows with
  | nil => rfl
  | cons r rest ih =>
    by_cases h : r.1 = id
    · simp [findBalance, updRow, h]
    · simp [findBalance, updRow, h, ih]

theorem findBalance_map_updRow_other (rows : List (String × Int)) (id id2 : String)
    (f : Int → Int) (h : id2 ≠ id) :
    findBalance (rows.map (updRow id f)) id2 = findBalance rows id2 := by
  induction rows with
  | nil => rfl
  | cons r rest ih =>
    by_cases hr2 : r.1 = id2
    · simp [findBalance, updRow, hr2, h]
    · simp [findBalance, updRow_fst, hr2, ih]

theorem map_updRow_not_mem (rows : List (String × Int)) (id : String)
    (f : Int → Int) (h : id ∉ rows.map Prod.fst) :
    rows.map (updRow id f) = rows := by
  induction rows with
  | nil => rfl
  | cons r rest ih =>
    simp only [List.map_cons, List.mem_cons] at h ⊢
    push_neg at h
    rw [ih h.2]
    unfold updRow
    rw [if_neg (fun hc => h.1 hc.symm)]

theorem findBalance_eq_of_mem (rows : List (String × Int)) (id : String) (v : Int)
    (hnd : (rows.map Prod.fst).Nodup) (hmem : (id, v) ∈ rows) :
    findBalance rows id = some v := by
  induction rows with
  | nil => cases hmem
  | cons r rest ih =>
    simp only [List.map_cons, List.nodup_cons] at hnd
    rcases List.mem_cons.mp hmem with h | h
    · rw [← h]; simp [findBalance]
    · have hid : id ∈ rest.map Prod.fst :=
        List.mem_map.mpr ⟨(id, v), h, rfl⟩
      have hr : r.1 ≠ id := fun hc => hnd.1 (hc ▸ hid)
      simp [findBalance, hr, ih hnd.2 h]

theorem sum_map_updRow_add (rows : List (String × Int)) (id : String) (d : Int)
    (hnd : (rows.map Prod.fst).Nodup) (hmem : id ∈ rows.map Prod.fst) :
    ((rows.map (updRow id (fun b => b + d))).map Prod.snd).sum
      = (rows.map Prod.snd).sum + d := by
  induction rows with
  | nil => cases hmem
  | cons r rest ih =>
    simp only [List.map_cons, List.nodup_cons] at hnd
    by_cases h : r.1 = id
    · have hnotin : id ∉ rest.map Prod.fst := h ▸ hnd.1
      simp only [List.map_cons, List.sum_cons]
      rw [map_updRow_not_mem rest id _ hnotin]
      unfold updRow
      rw [if_pos h]
      simp only [List.map_cons, List.sum_cons]
      ring
    · rcases List.mem_cons.mp hmem with hc | hc
      · exact absurd hc.symm h
      · have hr : updRow id (fun b => b + d) r = r := by
          unfold updRow; exact if_neg h
        simp only [List.map_cons, List.sum_cons, hr]
        rw [ih hnd.2 hc]
        ring

theorem sum_map_updRow_sub (rows : List (String × Int)) (id : String) (d : Int)
    (hnd : (rows.map Prod.fst).Nodup) (hmem : id ∈ rows.map Prod.fst) :
    ((rows.map (updRow id (fun b => b - d))).map Prod.snd).sum
      = (rows.map Prod.snd).sum - d := by
  have hfun : updRow id (fun b => b - d) = updRow id (fun b => b + (-d)) := by
    funext r; unfold updRow; split <;> simp [sub_eq_add_neg]
  rw [hfun, sum_map_updRow_add rows id (-d) hnd hmem]
  ring

theorem runTransfer_blocked_eq (db : DB) (proc : ProcState) (src dst : String)
    (amount : Int) (tid : String)
    (hb : (lookupBlocked db src).getD "" ≠ "") :
    runTransfer db proc src dst amount tid =
      (db, { proc with suspiciousTransfers := proc.suspiciousTransfers + 1 },
        some (TransferError.blocked ((lookupBlocked db src).getD ""))) := by
  unfold runTransfer transferFunds
  simp [hb]

theorem runTransfer_noRow_eq (db : DB) (proc : ProcState) (src dst : String)
    (amount : Int) (tid : String)
    (hb : (lookupBlocked db src).getD "" = "")
    (hbal : lookupBalance db src = none) :
    runTransfer db proc src dst amount tid = (db, proc, some TransferError.noRow) := by
  unfold runTransfer transferFunds
  simp [hb, hbal]

theorem runTransfer_insufficient_eq (db : DB) (proc : ProcState) (src dst : String)
    (amount : Int) (tid : String) (a : Int)
    (hb : (lookupBlocked db src).getD "" = "")
    (hbal : lookupBalance db src = some a) (hX : a < amount) :
    runTransfer db proc src dst amount tid =
      (db, proc, some TransferError.insufficientFunds) := by
  unfold runTransfer transferFunds
  simp [hb, hbal, hX]

theorem runTransfer_ok_eq (db : DB) (proc : ProcState) (src dst : String)
    (amount : Int) (tid : String) (a : Int)
    (hb : (lookupBlocked db src).getD "" = "")
    (hbal : lookupBalance db src = some a) (hX : ¬ a < amount) :
    runTransfer db proc src dst amount tid =
      ({ db with
          accounts := (db.accounts.map (updRow src (fun b => b - amount))).map
            (updRow dst (fun b => b + amount)),
          transfers := db.transfers ++
            [{ id := tid, source := src, destination := dst, amount := amount }] },
        { proc with transfers := proc.transfers + 1 }, none) := by
  unfold runTransfer transferFunds updateBalance
  simp [hb, hbal, hX]

theorem accountIds_runTransfer (db : DB) (proc : ProcState) (src dst : String)
    (amount : Int) (tid : String) :
    accountIds (runTransfer db proc src dst amount tid).1 = accountIds db := by
  by_cases hb : (lookupBlocked db src).getD "" = ""
  · cases hbal : lookupBalance db src with
    | none => rw [runTransfer_noRow_eq db proc src dst amount tid hb hbal]
    | some a =>
      by_cases hX : a < amount
      · rw [runTransfer_insufficient_eq db proc src dst amount tid a hb hbal hX]
      · rw [runTransfer_ok_eq db proc src dst amount tid a hb hbal hX]
        show ((db.accounts.map _).map _).map Prod.fst = _
        rw [map_fst_map_updRow, map_fst_map_updRow]
        rfl
  · rw [runTransfer_blocked_eq db proc src dst amount tid hb]

theorem sumBalances_runTransfer (db : DB) (proc : ProcState) (src dst : String)
    (amount : Int) (tid : String)
    (hnd : (accountIds db).Nodup)
    (hs : src ∈ accountIds db) (hd : dst ∈ accountIds db) :
    sumBalances (runTransfer db proc src dst amount tid).1 = sumBalances db := by
  by_cases hb : (lookupBlocked db src).getD "" = ""
  · cases hbal : lookupBalance db src with
    | none => rw [runTransfer_noRow_eq db proc src dst amount tid hb hbal]
    | some a =>
      by_cases hX : a < amount
      · rw [runTransfer_insufficient_eq db proc src dst amount tid a hb hbal hX]
      · rw [runTransfer_ok_eq db proc src dst amount tid a hb hbal hX]
        show (((db.accounts.map _).map _).map Prod.snd).sum = _
        have hnd1 : ((db.accounts.map (updRow src (fun b => b - amount))).map
            Prod.fst).Nodup := by
          rw [map_fst_map_updRow]; exact hnd
        have hd1 : dst ∈ (db.accounts.map (updRow src (fun b => b - amount))).map
            Prod.fst := by
          rw [map_fst_map_updRow]; exact hd
        rw [sum_map_updRow_add _ dst amount hnd1 hd1,
          sum_map_updRow_sub _ src amount hnd hs]
        show sumBalances db - amount + amount = sumBalances db
        ring
  · rw [runTransfer_blocked_eq db proc src dst amount tid hb]

theorem sumBalances_runTransfers (reqs : List TransferReq) :
    ∀ db proc, (accountIds db).Nodup →
      (∀ r ∈ reqs, r.src ∈ accountIds db ∧ r.dst ∈ accountIds db) →
      sumBalances (runTransfers db proc reqs).1 = sumBalances db := by
  induction reqs with
  | nil => intro db proc _ _; rfl
  | cons r rest ih =>
    intro db proc hnd hmem
    have hr := hmem r (List.mem_cons_self r rest)
    have hkeys := accountIds_runTransfer db proc r.src r.dst r.amount r.tid
    have hstep := sumBalances_runTransfer db proc r.src r.dst r.amount r.tid
      hnd hr.1 hr.2
    have hnd2 : (accountIds (runTransfer db proc r.src r.dst r.amount r.tid).1).Nodup := by
      rw [hkeys]; exact hnd
    have hmem2 : ∀ q ∈ rest,
        q.src ∈ accountIds (runTransfer db proc r.src r.dst r.amount r.tid).1 ∧
        q.dst ∈ accountIds (runTransfer db proc r.src r.dst r.amount r.tid).1 := by
      intro q hq
      rw [hkeys]
      exact hmem q (List.mem_cons_of_mem r hq)
    show sumBalances (runTransfers _ _ rest).1 = sumBalances db
    rw [ih _ _ hnd2 hmem2, hstep]

/-- Cancelling a debit with a credit of the same amount on the same account
restores the accounts table exactly. -/
theorem map_updRow_updRow_cancel (rows : List (String × Int)) (id : String)
    (amount : Int) :
    (rows.map (updRow id (fun b => b - amount))).map (updRow id (fun b => b + amount))
      = rows := by
  induction rows with
  | nil => rfl
  | cons r rest ih =>
    simp only [List.map_cons, ih]
    by_cases h : r.1 = id
    · unfold updRow
      rw [if_pos h]
      simp [h]
      rw [← h]
    · unfold updRow
      rw [if_neg h, if_neg h]

/-- C2: a call transfer(A, B, X) where A is not blocked and X exceeds the
balance of A always fails with the insufficent-funds error; the transaction
is rolled back, so the whole database — both balances and the transfers
table — is unchanged and no Transfer record is inserted. -/
theorem transfer_insufficient_funds_rejected
    (db : DB) (proc : ProcState) (A B : String) (X : Int) (tid : String) (a : Int)
    (hblk : lookupBlocked db A = none)
    (hbal : lookupBalance db A = some a) (hX : a < X) :
    runTransfer db proc A B X tid = (db, proc, some TransferError.insufficientFunds) := by
  have hb : (lookupBlocked db A).getD "" = "" := by rw [hblk]; rfl
  exact runTransfer_insufficient_eq db proc A B X tid a hb hbal hX

theorem transfer_insufficient_funds_rejected_witness :
    runTransfer dbLow ⟨0, 0⟩ "A" "B" 200 "t1" =
      (dbLow, ⟨0, 0⟩, some TransferError.insufficientFunds) :=
  transfer_insufficient_funds_rejected dbLow ⟨0, 0⟩ "A" "B" 200 "t1" 100
    (by decide) (by decide) (by decide)

/-- C3: once a block entry exists for A (every entry is inserted with the
fixed non-empty reason string), any transfer from A, to any destination and
of any amount, fails with the blocked error carrying that reason; the
transaction is rolled back with no balance change and the
suspicious-transfer counter is incremented. Expiry is the external TTL of
blocked_accounts: an entry present in the state is an active one. -/
theorem transfer_blocked_source_rejected
    (db : DB) (proc : ProcState) (A B : String) (X : Int) (tid : String) (r : String)
    (hblk : lookupBlocked db A = some r) (hr : r ≠ "") :
    runTransfer db proc A B X tid =
      (db, { proc with suspiciousTransfers := proc.suspiciousTransfers + 1 },
        some (TransferError.blocked r)) := by
  have hb : (lookupBlocked db A).getD "" ≠ "" := by rw [hblk]; exact hr
  have h := runTransfer_blocked_eq db proc A B X tid hb
  rw [hblk] at h
  exact h

theorem transfer_blocked_source_rejected_witness :
    runTransfer dbBlocked ⟨0, 0⟩ "A" "B" 5 "t1" =
      (dbBlocked, ⟨1, 0⟩, some (TransferError.blocked reason)) :=
  transfer_blocked_source_rejected dbBlocked ⟨0, 0⟩ "A" "B" 5 "t1" reason
    (by decide) (by decide)

/-- C1: a committed transfer of X from account A to account B (A and B
distinct rows of the accounts table) debits A by exactly X and credits B by
exactly X inside one transaction, which is a single atomic step of the
model, so no intermediate state is observable; the sum of all balances is
invariant across any sequence of transfers whose sources and destinations
are accounts; and a rejected transfer — here one of amount Y above the
balance of A — changes no balance (the transaction rolls back). -/
theorem transfer_conserves_balances
    (db : DB) (proc : ProcState) (A B : String) (X Y : Int) (tid : String)
    (a b : Int)
    (hnd : (accountIds db).Nodup)
    (hA : (A, a) ∈ db.accounts) (hB : (B, b) ∈ db.accounts) (hAB : A ≠ B)
    (hblk : lookupBlocked db A = none) (hX : ¬ a < X) (hY : a < Y)
    (reqs : List TransferReq)
    (hreqs : ∀ r ∈ reqs, r.src ∈ accountIds db ∧ r.dst ∈ accountIds db) :
    (runTransfer db proc A B X tid).2.2 = none ∧
    lookupBalance (runTransfer db proc A B X tid).1 A = some (a - X) ∧
    lookupBalance (runTransfer db proc A B X tid).1 B = some (b + X) ∧
    (runTransfer db proc A B Y tid).1 = db ∧
    sumBalances (runTransfers db proc reqs).1 = sumBalances db := by
  have hb : (lookupBlocked db A).getD "" = "" := by rw [hblk]; rfl
  have hbal : lookupBalance db A = some a :=
    findBalance_eq_of_mem db.accounts A a hnd hA
  have hbalB : lookupBalance db B = some b :=
    findBalance_eq_of_mem db.accounts B b hnd hB
  have hok := runTransfer_ok_eq db proc A B X tid a hb hbal hX
  refine ⟨?_, ?_, ?_, ?_, ?_⟩
  · rw [hok]
  · rw [hok]
    show findBalance ((db.accounts.map (updRow A (fun v => v - X))).map
      (updRow B (fun v => v + X))) A = some (a - X)
    rw [findBalance_map_updRow_other _ B A _ hAB,
      findBalance_map_updRow_self db.accounts A _]
    rw [show findBalance db.accounts A = some a from hbal]
    rfl
  · rw [hok]
    show findBalance ((db.accounts.map (updRow A (fun v => v - X))).map
      (updRow B (fun v => v + X))) B = some (b + X)
    rw [findBalance_map_updRow_self _ B _,
      findBalance_map_updRow_other db.accounts A B _ (fun hc => hAB hc.symm)]
    rw [show findBalance db.accounts B = some b from hbalB]
    rfl
  · rw [runTransfer_insufficient_eq db proc A B Y tid a hb hbal hY]
  · exact sumBalances_runTransfers reqs db proc hnd hreqs

theorem transfer_conserves_balances_witness :
    (runTransfer dbTwo ⟨0, 0⟩ "A" "B" 500 "t1").2.2 = none ∧
    lookupBalance (runTransfer dbTwo ⟨0, 0⟩ "A" "B" 500 "t1").1 "A" = some (1000 - 500) ∧
    lookupBalance (runTransfer dbTwo ⟨0, 0⟩ "A" "B" 500 "t1").1 "B" = some (1000 + 500) ∧
    (runTransfer dbTwo ⟨0, 0⟩ "A" "B" 1200 "t1").1 = dbTwo ∧
    sumBalances (runTransfers dbTwo ⟨0, 0⟩ reqsTwo).1 = sumBalances dbTwo :=
  transfer_conserves_balances dbTwo ⟨0, 0⟩ "A" "B" 500 1200 "t1" 1000 1000
    (by decide) (by decide) (by decide) (by decide) (by decide) (by decide)
    (by decide) reqsTwo (by decide)

/-- C9: self-transfers are not rejected: for an account A that is not
blocked and an amount X at most the balance of A, transfer(A, A, X) commits,
the debit and credit cancel inside the one transaction so the balance of A
(and every other balance) is unchanged, a Transfer record is still inserted,
and the successful-transfer counter is incremented. -/
theorem self_transfer_commits_unchanged
    (db : DB) (proc : ProcState) (A : String) (X : Int) (tid : String) (a : Int)
    (hnd : (accountIds db).Nodup)
    (hA : (A, a) ∈ db.accounts)
    (hblk : lookupBlocked db A = none) (hX : ¬ a < X) :
    runTransfer db proc A A X tid =
      ({ db with transfers := db.transfers ++
          [{ id := tid, source := A, destination := A, amount := X }] },
        { proc with transfers := proc.transfers + 1 }, none) ∧
    lookupBalance (runTransfer db proc A A X tid).1 A = some a := by
  have hb : (lookupBlocked db A).getD "" = "" := by rw [hblk]; rfl
  have hbal : lookupBalance db A = some a :=
    findBalance_eq_of_mem db.accounts A a hnd hA
  have hok := runTransfer_ok_eq db proc A A X tid a hb hbal hX
  rw [map_updRow_updRow_cancel db.accounts A X] at hok
  constructor
  · exact hok
  · rw [hok]; exact hbal

theorem self_transfer_commits_unchanged_witness :
    runTransfer dbTwo ⟨0, 0⟩ "A" "A" 700 "t9" =
      ({ dbTwo with transfers := dbTwo.transfers ++
          [{ id := "t9", source := "A", destination := "A", amount := 700 }] },
        ⟨0, 1⟩, none) ∧
    lookupBalance (runTransfer dbTwo ⟨0, 0⟩ "A" "A" 700 "t9").1 "A" = some 1000 :=
  self_transfer_commits_unchanged dbTwo ⟨0, 0⟩ "A" 700 "t9" 1000
    (by decide) (by decide) (by decide) (by decide)

/-- C4 (code bug): despite twenty non-expired Warning anomaly records for
source A — summed weight 20, which reaches the block threshold — the
escalation inserts no block entry: its query reads the transfers table,
which has no anomaly_level column (and compares source against a quoted
literal placeholder), so the store rejects the query and the inverted error
check swallows the rejection, returning with the database unchanged. -/
theorem needToBlockAccount_never_blocks :
    (dbEsc.anomalies.filter
      (fun r => r.source == "A" && r.anomalyLevel == warning)).length = 20 ∧
    dbEsc.blockedAccounts = [] ∧
    escalationQueryOutcome
      = Except.error (QueryError.other "column anomaly_level does not exist") ∧
    needToBlockAccount dbEsc "A" = Except.ok dbEsc := by
  exact ⟨rfl, rfl, rfl, rfl⟩

/-- C5 (code bug): the severity mapping itself matches the claim — Ok below
500, Warning from 500 below 1000, Alert from 1000 — but no anomaly record
keyed by (source, destination, transfer id, level) is ever written: the
insert statement names the nonexistent column level (the schema column is
anomaly_level) and omits the transfer id entirely, so the store rejects it;
isAnomaly only logs that rejection and completes with the anomalies table
unchanged even for this Warning-level transfer. -/
theorem isAnomaly_classification_and_lost_insert :
    anomalyLevelOfAmount 499 = notAnomaly ∧
    anomalyLevelOfAmount 500 = warning ∧
    anomalyLevelOfAmount 999 = warning ∧
    anomalyLevelOfAmount 1000 = alert ∧
    anomalyLevel dbVel "t1" = some warning ∧
    insertAnomaliesOutcome dbVel ["source", "destination", "level"]
      { source := "A", destination := "B", transferId := none,
        anomalyLevel := warning }
      = Except.error (QueryError.other "column does not exist") ∧
    isAnomaly dbVel (Except.ok warning) msgVel = Except.ok dbVel ∧
    dbVel.anomalies = [] := by
  exact ⟨rfl, rfl, rfl, rfl, rfl, rfl, rfl, rfl⟩

/-- C6 (code bug): the no-rows handling of both classifier policies is
inverted: a query that finds no row — the error message tested by the code
— is propagated as a classification failure, while a genuine store error
is swallowed and the classification completes as if nothing failed. -/
theorem classifier_error_handling_inverted :
    isAnomaly dbVel (Except.error QueryError.noRows) msgVel
      = Except.error QueryError.noRows ∧
    isAnomaly dbVel (Except.error (QueryError.other "connection refused")) msgVel
      = Except.ok dbVel ∧
    isFraud dbVel (Except.error QueryError.noRows) "A" "B"
      = Except.error QueryError.noRows ∧
    isFraud dbVel (Except.error (QueryError.other "connection refused")) "A" "B"
      = Except.ok dbVel := by
  exact ⟨rfl, rfl, rfl, rfl⟩

/-- C8 (code bug): counter increments are not attributable to exactly one
transfer outcome: a single committed transfer whose transaction is retried
once after a commit-time conflict increments the successful-transfer
counter twice, because the increment runs inside the retried ExecuteTx
closure; the end-of-run report then exceeds the number of committed
transfers (one transfers row). -/
theorem transfer_counter_double_count_on_retry :
    (runTransferWithRetries dbTwo ⟨0, 0⟩ 1 "A" "B" 100 "t1").2.1.transfers = 2 ∧
    (runTransferWithRetries dbTwo ⟨0, 0⟩ 1 "A" "B" 100 "t1").1.transfers.length = 1 ∧
    (runTransferWithRetries dbTwo ⟨0, 0⟩ 1 "A" "B" 100 "t1").2.2 = none := by decide

theorem bytesSplit_ne_nil (sep : Char) (l : List Char) : bytesSplit sep l ≠ [] := by
  cases l with
  | nil => simp [bytesSplit]
  | cons c rest =>
    unfold bytesSplit
    split
    · simp
    · split <;> simp

theorem bytesSplit_append_sep (sep : Char) (b : List Char) :
    bytesSplit sep (b ++ [sep]) = bytesSplit sep b ++ [[]] := by
  induction b with
  | nil =>
    show bytesSplit sep [sep] = [[]] ++ [[]]
    unfold bytesSplit
    rw [if_pos rfl]
    rfl
  | cons c rest ih =>
    show bytesSplit sep (c :: (rest ++ [sep])) = _
    unfold bytesSplit
    by_cases h : c = sep
    · rw [if_pos h, if_pos h, ih]
      rfl
    · rw [if_neg h, if_neg h, ih]
      cases hsp : bytesSplit sep rest with
      | nil => exact absurd hsp (bytesSplit_ne_nil sep rest)
      | cons s ss => rfl

theorem processLines_prefix_bad (parse : List Char → Option Message)
    (good : List (List Char)) (bad : List Char) (rest : List (List Char))
    (hgood : ∀ v ∈ good, (parse v).isSome) (hbad : parse bad = none) :
    processLines parse (good ++ bad :: rest) = (good.filterMap parse, true) := by
  induction good with
  | nil =>
    show processLines parse (bad :: rest) = _
    unfold processLines
    rw [hbad]
    rfl
  | cons v g ih =>
    have hv := hgood v (List.mem_cons_self v g)
    obtain ⟨m, hm⟩ := Option.isSome_iff_exists.mp hv
    have ihg : ∀ w ∈ g, (parse w).isSome :=
      fun w hw => hgood w (List.mem_cons_of_mem v hw)
    show processLines parse (v :: (g ++ bad :: rest)) = _
    unfold processLines
    rw [hm, ih ihg]
    simp [List.filterMap_cons, hm]

/-- C7: the ingestion handler processes the newline-split body record by
record in order: every record parsed before the first malformed segment is
dispatched to the fraud pipeline, in order, and the first malformed segment
aborts processing of all remaining segments; the handler is a total
function, so the endpoint does not crash. -/
theorem serveHTTP_dispatch_until_first_malformed
    (parse : List Char → Option Message) (buf : List Char)
    (good : List (List Char)) (bad : List Char) (rest : List (List Char))
    (hsplit : bytesSplit newLine buf = good ++ bad :: rest)
    (hgood : ∀ v ∈ good, (parse v).isSome) (hbad : parse bad = none) :
    serveHTTP parse buf = (good.filterMap parse, true) := by
  unfold serveHTTP
  rw [hsplit]
  exact processLines_prefix_bad parse good bad rest hgood hbad

theorem serveHTTP_dispatch_until_first_malformed_witness :
    serveHTTP parseEx bodyMid = ([lineA.toList].filterMap parseEx, true) :=
  serveHTTP_dispatch_until_first_malformed parseEx bodyMid
    [lineA.toList] ("x".toList) [lineB.toList]
    (by decide) (by decide) (by decide)

/-- C10 as stated is false at this request: the body ends with the newline
byte and lineB is a well-formed record appearing before the trailing empty
segment, yet it is not dispatched, because the handler aborts earlier, at
the malformed segment x, not at the trailing empty segment. -/
theorem trailing_newline_wellformed_not_dispatched :
    bodyTrail.getLast? = some newLine ∧
    bytesSplit newLine bodyTrail
      = [lineA.toList, "x".toList, lineB.toList, []] ∧
    parseEx lineB.toList = some msgB ∧
    serveHTTP parseEx bodyTrail = ([msgA], true) ∧
    msgB ∉ (serveHTTP parseEx bodyTrail).1 := by
  refine ⟨rfl, rfl, rfl, rfl, ?_⟩
  decide

/-- C10 amended: a body ending with the newline byte splits into the
segments of its prefix plus a trailing empty segment, and the empty segment
fails JSON parsing, so the handler always logs a parse error and aborts at
the first malformed segment — at latest the trailing empty one; every
well-formed record before the first malformed segment is still dispatched,
and the handler is total, so the endpoint does not crash. -/
theorem serveHTTP_trailing_newline_aborts
    (parse : List Char → Option Message) (b : List Char)
    (good : List (List Char)) (bad : List Char) (rest : List (List Char))
    (hp : parse [] = none)
    (hsplit : bytesSplit newLine (b ++ [newLine]) = good ++ bad :: rest)
    (hgood : ∀ v ∈ good, (parse v).isSome) (hbad : parse bad = none) :
    bytesSplit newLine (b ++ [newLine]) = bytesSplit newLine b ++ [[]] ∧
    parse [] = none ∧
    serveHTTP parse (b ++ [newLine]) = (good.filterMap parse, true) := by
  refine ⟨bytesSplit_append_sep newLine b, hp, ?_⟩
  unfold serveHTTP
  rw [hsplit]
  exact processLines_prefix_bad parse good bad rest hgood hbad

theorem serveHTTP_trailing_newline_aborts_witness :
    bytesSplit newLine (lineA.toList ++ [newLine])
      = bytesSplit newLine lineA.toList ++ [[]] ∧
    parseEx [] = none ∧
    serveHTTP parseEx (lineA.toList ++ [newLine])
      = ([lineA.toList].filterMap parseEx, true) :=
  serveHTTP_trailing_newline_aborts parseEx lineA.toList
    [lineA.toList] [] []
    (by decide) (by decide) (by decide) (by decide)
